import Mathlib

/-!
Verification development for the GreenGuard energy-audit pipeline.

Shallow embedding of the decision pipeline: the rule-based pre-check, the
AI classifier adapter and its response parsing, the verdict reconciliation
inside the orchestrator, the contextual analyzer, the context enrichers,
the persistence helpers, and the orchestrator control flow.  Statuses are
kept as strings, matching the stringly-typed source; machine numbers are
modelled as rationals.
-/

namespace GreenGuard

/-- JS Math.round: round half toward positive infinity. -/
def jsRound (x : ℚ) : ℤ := ⌊x + 1 / 2⌋

/-- Clamp a confidence value into the range 0..100,
as in Math.max(0, Math.min(100, x)). -/
def jsClamp (x : ℚ) : ℚ := max 0 (min 100 x)

/-- JS String.prototype.includes, on the character lists. -/
def includesSub (hay needle : String) : Bool :=
  decide (needle.toList <:+: hay.toList)

/-! ## Rule-based pre-check (agent-orchestrator.ts, STEP 3) -/

/-- Variance of a reading against the bill maximum load, in percent:
((currentReading - billMaxLoad) / billMaxLoad) * 100. -/
def variancePct (currentReading billMaxLoad : ℚ) : ℚ :=
  (currentReading - billMaxLoad) / billMaxLoad * 100

/-- The preliminary status computed by the rules engine in STEP 3 of
processIotLog: ANOMALY above 20 percent variance, WARNING above 10,
VERIFIED otherwise.  The source assigns no confidence here. -/
def preliminaryStatusOf (variance : ℚ) : String :=
  if variance > 20 then "ANOMALY"
  else if variance > 10 then "WARNING"
  else "VERIFIED"

/-! ## AI classifier adapter (gemini-client.ts) -/

/-- Result of analyzeEnergyAnomaly: a status string, reasoning, confidence. -/
structure EnergyAnalysisResult where
  status : String
  reasoning : String
  confidence : ℚ
deriving DecidableEq

/-- A JSON object extracted from the model response.  Each field is the
value JSON.parse produced: none models an absent field or a field of the
wrong runtime type (not a string for status and reasoning, not a number
for confidence). -/
structure ParsedJson where
  status : Option String
  reasoning : Option String
  confidence : Option ℚ
deriving DecidableEq

/-- The provider response text, abstracted at the point the source
distinguishes: either the text matched the brace regex (and JSON.parse
succeeded or threw), or it contained no brace-delimited blob and the
keyword fallback scans the raw text. -/
inductive AIText where
  | withJson (parsed : Option ParsedJson)
  | noJson (text : String)
deriving DecidableEq

/-- parseAIResponse from gemini-client.ts: validate the status against the
three allowed values, truncate the reasoning, clamp the confidence; fall
back to keyword scanning when no JSON blob is present; return PENDING with
confidence 0 when JSON.parse throws. -/
def parseAIResponse : AIText → EnergyAnalysisResult
  | .withJson none =>
      ⟨"PENDING", "Unable to parse AI analysis. Manual review required.", 0⟩
  | .withJson (some parsed) =>
      let status :=
        match parsed.status with
        | some s => if s = "NORMAL" ∨ s = "WARNING" ∨ s = "ANOMALY" then s else "PENDING"
        | none => "PENDING"
      let reasoning :=
        match parsed.reasoning with
        | some s => s.take 500
        | none => "Analysis completed"
      let confidence :=
        match parsed.confidence with
        | some c => jsClamp c
        | none => (50 : ℚ)
      ⟨status, reasoning, confidence⟩
  | .noJson text =>
      let upper := text.toUpper
      let status :=
        if includesSub upper "ANOMALY" then "ANOMALY"
        else if includesSub upper "WARNING" then "WARNING"
        else if includesSub upper "NORMAL" then "NORMAL"
        else "PENDING"
      ⟨status, text.take 300, 70⟩

/-- analyzeEnergyAnomaly from gemini-client.ts.  The argument is the
outcome of the provider call: error covers a missing API key, a thrown
request, or a rate limit; ok carries the response text.  Every error is
caught and turned into the PENDING safe default. -/
def analyzeEnergyAnomaly : Except String AIText → EnergyAnalysisResult
  | .error _ => ⟨"PENDING", "AI analysis unavailable. Manual review required.", 0⟩
  | .ok text => parseAIResponse text

/-! ## Verdict reconciliation (agent-orchestrator.ts, STEP 5) -/

/-- The severityOrder record from processIotLog.  Lookup of a key not in
the record yields undefined, modelled as none. -/
def severityOrder : String → Option ℕ
  | "VERIFIED" => some 0
  | "NORMAL" => some 0
  | "PENDING" => some 1
  | "WARNING" => some 2
  | "ANOMALY" => some 3
  | "REJECTED" => some 4
  | _ => none

/-- JS greater-than on possibly-undefined numbers: any comparison
involving undefined is false. -/
def jsOptGT : Option ℕ → Option ℕ → Bool
  | some a, some b => decide (a > b)
  | _, _ => false

/-- The values the orchestrator carries out of STEP 5: the final status,
the reasoning, and the confidence that are persisted in STEP 6. -/
structure AiStepOutcome where
  finalStatus : String
  aiReasoning : String
  confidence : ℚ
deriving DecidableEq

/-- STEP 5 of processIotLog.  On a successful AI call the status with the
strictly higher severity rank wins (NORMAL maps to VERIFIED and PENDING
falls back to the preliminary status), and the reasoning and confidence
are taken from the AI result unconditionally.  When the awaited call
throws, the preliminary status is kept, the reasoning is rebuilt from the
rule variance and the context analysis, and the confidence keeps its
initial value 75.  Numeric formatting inside the reasoning string is
simplified (toString in place of toFixed). -/
def aiStep (preliminaryStatus : String) (variance : ℚ) (contextReason : String) :
    Except String EnergyAnalysisResult → AiStepOutcome
  | .ok aiResult =>
      let finalStatus :=
        if jsOptGT (severityOrder aiResult.status) (severityOrder preliminaryStatus) then
          if aiResult.status = "NORMAL" then "VERIFIED"
          else if aiResult.status = "PENDING" then preliminaryStatus
          else aiResult.status
        else preliminaryStatus
      ⟨finalStatus, aiResult.reasoning, aiResult.confidence⟩
  | .error _ =>
      ⟨preliminaryStatus,
       "Rule-based analysis: Reading is " ++ toString variance ++ "% " ++
         (if variance > 0 then "over" else "under") ++
         " the maximum allowed load. " ++ contextReason,
       75⟩

/-! ## Contextual analyzer (context-agent.ts) -/

/-- Weather context handed to the contextual analyzer. -/
structure WeatherContext where
  temperature : ℚ
  condition : String
  humidity : Option ℚ
deriving DecidableEq

/-- Result of analyzeContextualAnomaly. -/
structure ContextualAnomalyResult where
  isSuspicious : Bool
  reason : String
  contextFlags : List String
deriving DecidableEq

/-- analyzeContextualAnomaly from context-agent.ts: five sequential checks
that push flags and update the suspicious bit and the reason string.
Checks 2 and 4 never set the suspicious bit; check 5 sets it whenever it
fires while the bit is still clear.  Numeric formatting inside the reason
strings is simplified (toString in place of template interpolation). -/
def analyzeContextualAnomaly (energyReading : ℚ) (weather : WeatherContext)
    (gridIntensity billMaxLoad : ℚ) : ContextualAnomalyResult :=
  let f1 : Bool := decide (energyReading > billMaxLoad * 0.8 ∧ weather.temperature < 22)
  let f2 : Bool := decide (gridIntensity > 800 ∧ energyReading > billMaxLoad * 0.9)
  let f3 : Bool := decide (energyReading > billMaxLoad * 1.2)
  let f4 : Bool := decide (weather.temperature > 35 ∧ energyReading > billMaxLoad * 0.85)
  let f5 : Bool := decide (weather.condition = "Rainy" ∧ energyReading > billMaxLoad * 0.9)
  let flags :=
    (if f1 then ["HIGH_ENERGY_COOL_WEATHER"] else []) ++
    (if f2 then ["HIGH_CARBON_IMPACT"] else []) ++
    (if f3 then ["CRITICAL_OVERAGE"] else []) ++
    (if f4 then ["EXTREME_HEAT_HIGH_LOAD"] else []) ++
    (if f5 then ["HIGH_LOAD_RAINY_DAY"] else [])
  -- the suspicious bit after checks 1..3 (checks 2 and 4 never touch it)
  let susp3 := f1 || f3
  let reason1 :=
    if f1 then
      "High energy usage (" ++ toString energyReading ++
        " kWh) detected during cool weather (" ++ toString weather.temperature ++
        "C). Unexpected AC load or equipment malfunction?"
    else "Energy usage aligns with environmental context"
  let reason2 :=
    if f2 && !f1 then
      "Energy usage during high carbon intensity period (" ++ toString gridIntensity ++
        "g/kWh). Consider load shifting to reduce environmental impact."
    else reason1
  let reason3 :=
    if f3 then
      "Critical: Energy usage " ++ toString (jsRound ((energyReading / billMaxLoad - 1) * 100)) ++
        "% above contractual limit."
    else reason2
  let reason4 :=
    if f4 && !susp3 then
      "High energy usage expected due to extreme heat (" ++ toString weather.temperature ++ "C)."
    else reason3
  let reason5 :=
    if f5 && !susp3 then
      "Unexpectedly high energy usage (" ++ toString energyReading ++
        " kWh) during rainy conditions. Verify operations are normal."
    else reason4
  ⟨susp3 || f5, reason5, flags⟩

/-! ## Local heuristic fallback of the auditor agent (performFallbackAudit) -/

/-- Verdict, confidence and reasoning returned by the fallback audit. -/
structure FallbackAuditResult where
  verdict : String
  confidence : ℚ
  reasoning : String
deriving DecidableEq

/-- performFallbackAudit: the rule-based decision used when the AI service
is unconfigured or the primary path failed.  Numeric formatting inside the
reasoning strings is simplified. -/
def performFallbackAudit (power max_load temp_c : ℚ) : FallbackAuditResult :=
  let loadPercentage := power / max_load * 100
  if power > max_load * 1.2 then
    ⟨"ANOMALY", 85,
     "Power consumption (" ++ toString power ++ " kW) exceeds maximum load by " ++
       toString (loadPercentage - 100) ++ "% without clear justification."⟩
  else if power > max_load then
    if temp_c > 32 ∨ temp_c < 5 then
      ⟨"WARNING", 60,
       "Power slightly exceeds limit but may be justified by extreme temperature (" ++
         toString temp_c ++ "C)."⟩
    else
      ⟨"ANOMALY", 75,
       "Power exceeds maximum load under mild weather conditions (" ++
         toString temp_c ++ "C)."⟩
  else if loadPercentage > 90 then
    ⟨"WARNING", 70,
     "High load utilization (" ++ toString loadPercentage ++ "%) warrants monitoring."⟩
  else
    ⟨"VERIFIED", 80,
     "Power consumption within acceptable range (" ++ toString loadPercentage ++
       "% of max load)."⟩

/-! ## Context enricher (agents/context-agent.ts, getContextData) -/

/-- Weather data as produced by the OpenWeatherMap path or the mock. -/
structure WeatherData where
  temp_c : ℚ
  condition : String
  humidity : ℚ
deriving DecidableEq

/-- Grid carbon intensity data. -/
structure GridData where
  grid_carbon_intensity : ℤ
  is_high_intensity : Bool
deriving DecidableEq

/-- Per-field provenance recorded in the context snapshot. -/
inductive SourceTag where
  | api
  | mock
deriving DecidableEq

/-- The combined context snapshot returned by getContextData. -/
structure ContextData where
  weather : WeatherData
  grid : GridData
  sourceWeather : SourceTag
  sourceGrid : SourceTag
deriving DecidableEq

/-- Three Math.random draws consumed by getMockWeatherData. -/
structure MockRng where
  r1 : ℚ
  r2 : ℚ
  r3 : ℚ
deriving DecidableEq

/-- The Math.random contract: every draw lies in the interval [0, 1). -/
def MockRng.Valid (rng : MockRng) : Prop :=
  0 ≤ rng.r1 ∧ rng.r1 < 1 ∧ 0 ≤ rng.r2 ∧ rng.r2 < 1 ∧ 0 ≤ rng.r3 ∧ rng.r3 < 1

/-- getMockWeatherData: latitude bands tropical, temperate, polar, each
producing a temperature range, a condition distribution and a humidity
range from the three random draws.  In the temperate band the source
indexes a three-element array with floor(r2 * 3); for draws in [0, 1)
the index is 0, 1 or 2, and the embedding collapses any other value to
the last entry. -/
def getMockWeatherData (lat lon : ℚ) (rng : MockRng) : WeatherData :=
  let absLat := |lat|
  if absLat < 23.5 then
    ⟨28 + rng.r1 * 4,
     if rng.r2 > 0.5 then "Clear" else "Partly Cloudy",
     70 + ((⌊rng.r3 * 20⌋ : ℤ) : ℚ)⟩
  else if absLat < 66.5 then
    let idx := ⌊rng.r2 * 3⌋
    ⟨15 + rng.r1 * 15,
     if idx = 0 then "Clear" else if idx = 1 then "Partly Cloudy" else "Cloudy",
     50 + ((⌊rng.r3 * 30⌋ : ℤ) : ℚ)⟩
  else
    ⟨-5 + rng.r1 * 15,
     if rng.r2 > 0.5 then "Cloudy" else "Snow",
     60 + ((⌊rng.r3 * 20⌋ : ℤ) : ℚ)⟩

/-- getMockGridData: base intensity interpolated from the longitude,
multiplied by 1.2 during the hours 18..21 of the current wall-clock time
(the hour argument models new Date().getHours(); the reading timestamp is
not consulted).  The latitude argument is accepted and ignored, as in the
source. -/
def getMockGridData (lat lon : ℚ) (hour : ℕ) : GridData :=
  let regionFactor := (lon + 180) / 360
  let baseIntensity := 300 + regionFactor * 400
  let peakHourMultiplier : ℚ := if 18 ≤ hour ∧ hour ≤ 21 then 1.2 else 1.0
  let intensity := jsRound (baseIntensity * peakHourMultiplier)
  ⟨intensity, decide (intensity > 500)⟩

/-- getContextData: validate the coordinates (throwing on out-of-range
values), run both provider fetches (the Option arguments are their
outcomes; none covers a missing key, a non-2xx response, or a thrown
fetch), and substitute the mock for any failed source, recording the
provenance of each field. -/
def getContextData (lat lon : ℚ) (weatherApi : Option WeatherData)
    (gridApi : Option GridData) (rng : MockRng) (hour : ℕ) :
    Except String ContextData :=
  if lat < -90 ∨ lat > 90 then
    .error ("Invalid latitude: " ++ toString lat ++ ". Must be between -90 and 90.")
  else if lon < -180 ∨ lon > 180 then
    .error ("Invalid longitude: " ++ toString lon ++ ". Must be between -180 and 180.")
  else
    let weather := weatherApi.getD (getMockWeatherData lat lon rng)
    let grid := gridApi.getD (getMockGridData lat lon hour)
    .ok ⟨weather, grid,
         if weatherApi.isSome then .api else .mock,
         if gridApi.isSome then .api else .mock⟩

/-! ## Persistence helpers (db-helpers.ts) -/

/-- The human reviewer actions accepted by updateAuditWithHumanAction. -/
inductive HumanAction where
  | APPROVED
  | FLAGGED
deriving DecidableEq

/-- The columns of an audit_events row that the human-action update
touches.  The schema declares human_action as a nullable TEXT column with
no constraint relating it to previous values. -/
structure AuditRow where
  human_action : Option HumanAction
  human_action_timestamp : Option String
deriving DecidableEq

/-- The audit_events table, as an association list from row id to row. -/
abbrev AuditStore := List (String × AuditRow)

/-- Row lookup by id, as the single-row select does. -/
def lookupAudit (store : AuditStore) (auditId : String) : Option AuditRow :=
  (store.find? fun p => decide (p.1 = auditId)).map Prod.snd

/-- updateAuditWithHumanAction: set human_action and its timestamp on the
row with the given id.  The update is unconditional - nothing inspects the
previous value of human_action; .single() errors only when no row matches. -/
def updateAuditWithHumanAction (store : AuditStore) (auditId : String)
    (action : HumanAction) (now : String) :
    Except String (AuditStore × AuditRow) :=
  match lookupAudit store auditId with
  | none => .error "JSON object requested, multiple (or no) rows returned"
  | some row =>
      let updated : AuditRow :=
        { row with human_action := some action, human_action_timestamp := some now }
      .ok (store.map (fun p => if p.1 = auditId then (p.1, updated) else p), updated)

/-! ## Orchestrator (agent-orchestrator.ts, processIotLog) -/

/-- Outcome of an awaited supabase call: ok carries the data, err models a
returned error object or missing data (handled by the guarding if), thrown
models a rejected promise that escapes to the top-level catch. -/
inductive DbCall (α : Type) where
  | ok (val : α)
  | err (msg : String)
  | thrown (msg : String)
deriving DecidableEq

/-- The fields of an iot_logs row the orchestrator reads. -/
structure IotLog where
  energy_kwh : ℚ
  supplier_id : String
  timestamp : String
deriving DecidableEq

/-- The fields of a suppliers row the orchestrator reads. -/
structure Supplier where
  name : String
  bill_max_load_kwh : ℚ
  location : String
deriving DecidableEq

/-- The audit_events row created in STEP 6. -/
structure AuditEventData where
  log_reference_id : String
  status : String
  agent_reasoning : String
  confidence_score : ℚ
deriving DecidableEq

/-- The ProcessResult returned by processIotLog. -/
structure ProcessResult where
  success : Bool
  auditId : Option String
  status : Option String
  error : Option String
deriving DecidableEq

/-- The environment of one processIotLog run: the outcome of every
external call.  The weather and grid context of STEP 2 is produced by the
pure mock generators of context-agent.ts and cannot throw, so it enters as
a value. -/
structure OrchEnv where
  iotLog : DbCall IotLog
  supplier : DbCall Supplier
  historicalLogs : DbCall (List ℚ)
  weather : WeatherContext
  gridIntensity : ℚ
  aiCall : Except String EnergyAnalysisResult
  createAudit : DbCall String

/-- processIotLog: fetch the log, the supplier and the history, run the
rule pre-check, the contextual analysis and the AI step, then create the
audit event.  Returns the ProcessResult together with the list of audit
rows persisted during the run.  Any thrown call is caught by the top-level
catch, which returns a failure result; the handled fetch and create errors
return the fixed failure messages of the source. -/
def processIotLog (logId : String) (env : OrchEnv) :
    ProcessResult × List AuditEventData :=
  match env.iotLog with
  | .thrown msg => (⟨false, none, none, some msg⟩, [])
  | .err _ => (⟨false, none, none, some "IoT log not found"⟩, [])
  | .ok iotLog =>
    match env.supplier with
    | .thrown msg => (⟨false, none, none, some msg⟩, [])
    | .err _ => (⟨false, none, none, some "Supplier not found"⟩, [])
    | .ok supplier =>
      match env.historicalLogs with
      | .thrown msg => (⟨false, none, none, some msg⟩, [])
      | histCall =>
        let historicalAverage : ℚ :=
          match histCall with
          | .ok logs => if 0 < logs.length then logs.sum / (logs.length : ℚ)
                        else iotLog.energy_kwh
          | _ => iotLog.energy_kwh
        let currentReading := iotLog.energy_kwh
        let billMaxLoad := supplier.bill_max_load_kwh
        let variance := variancePct currentReading billMaxLoad
        let preliminaryStatus := preliminaryStatusOf variance
        let contextAnalysis :=
          analyzeContextualAnomaly currentReading env.weather env.gridIntensity billMaxLoad
        let step5 := aiStep preliminaryStatus variance contextAnalysis.reason env.aiCall
        let auditData : AuditEventData :=
          ⟨logId, step5.finalStatus, step5.aiReasoning, step5.confidence⟩
        match env.createAudit with
        | .thrown msg => (⟨false, none, none, some msg⟩, [])
        | .err _ => (⟨false, none, none, some "Failed to create audit"⟩, [])
        | .ok auditId =>
            (⟨true, some auditId, some step5.finalStatus, none⟩, [auditData])

/-! ## Helper lemmas -/

/-- Every result of the AI adapter carries one of the four status strings. -/
lemma analyzeEnergyAnomaly_status_cases (g : Except String AIText) :
    (analyzeEnergyAnomaly g).status = "NORMAL" ∨ (analyzeEnergyAnomaly g).status = "WARNING"
    ∨ (analyzeEnergyAnomaly g).status = "ANOMALY"
    ∨ (analyzeEnergyAnomaly g).status = "PENDING" := by
  rcases g with msg | t
  · simp [analyzeEnergyAnomaly]
  · rcases t with p | txt
    · rcases p with _ | p
      · simp [analyzeEnergyAnomaly, parseAIResponse]
      · obtain ⟨st, re, co⟩ := p
        rcases st with _ | s
        · simp [analyzeEnergyAnomaly, parseAIResponse]
        · by_cases h : s = "NORMAL" ∨ s = "WARNING" ∨ s = "ANOMALY"
          · simp only [analyzeEnergyAnomaly, parseAIResponse, if_pos h]
            tauto
          · simp [analyzeEnergyAnomaly, parseAIResponse, h]
    · simp only [analyzeEnergyAnomaly, parseAIResponse]
      split
      · simp
      · split
        · simp
        · split <;> simp

/-- The confidence of every AI adapter result lies between 0 and 100. -/
lemma analyzeEnergyAnomaly_confidence_bounds (g : Except String AIText) :
    0 ≤ (analyzeEnergyAnomaly g).confidence ∧ (analyzeEnergyAnomaly g).confidence ≤ 100 := by
  rcases g with msg | t
  · simp [analyzeEnergyAnomaly]
  · rcases t with p | txt
    · rcases p with _ | p
      · simp [analyzeEnergyAnomaly, parseAIResponse]
      · obtain ⟨st, re, co⟩ := p
        rcases co with _ | c
        · norm_num [analyzeEnergyAnomaly, parseAIResponse]
        · refine ⟨?_, ?_⟩ <;>
            simp only [analyzeEnergyAnomaly, parseAIResponse, jsClamp]
          · exact le_max_left 0 _
          · exact max_le (by norm_num) (min_le_left 100 c)
    · norm_num [analyzeEnergyAnomaly, parseAIResponse]

/-! ## Claim theorems -/

/-- C10: the AI adapter analyzeEnergyAnomaly is total: for every provider
outcome it returns a result whose status is one of NORMAL, WARNING,
ANOMALY or PENDING and whose confidence lies in [0, 100]; a thrown
provider call and an unparsable JSON blob both yield PENDING with
confidence 0; and the orchestrator maps a PENDING status back to the
rule-based preliminary status. -/
theorem analyzeEnergyAnomaly_total_and_bounded :
    (∀ g : Except String AIText,
        ((analyzeEnergyAnomaly g).status = "NORMAL"
          ∨ (analyzeEnergyAnomaly g).status = "WARNING"
          ∨ (analyzeEnergyAnomaly g).status = "ANOMALY"
          ∨ (analyzeEnergyAnomaly g).status = "PENDING")
        ∧ 0 ≤ (analyzeEnergyAnomaly g).confidence
        ∧ (analyzeEnergyAnomaly g).confidence ≤ 100)
    ∧ (∀ msg, analyzeEnergyAnomaly (Except.error msg)
        = ⟨"PENDING", "AI analysis unavailable. Manual review required.", 0⟩)
    ∧ analyzeEnergyAnomaly (Except.ok (AIText.withJson none))
        = ⟨"PENDING", "Unable to parse AI analysis. Manual review required.", 0⟩
    ∧ (∀ (p ctx re : String) (v c : ℚ),
        (aiStep p v ctx (Except.ok ⟨"PENDING", re, c⟩)).finalStatus = p) := by
  refine ⟨fun g => ⟨analyzeEnergyAnomaly_status_cases g,
      analyzeEnergyAnomaly_confidence_bounds g⟩, fun msg => rfl, rfl, ?_⟩
  intro p ctx re v c
  simp only [aiStep]
  split
  · rw [if_neg (by decide)]
    simp
  · rfl

/-- C2: floor property.  For every reading with variance strictly above
20 percent, the reconciled final severity is ANOMALY, both for every
possible output of the AI classifier and when the awaited AI stage
throws. -/
theorem final_severity_floor_anomaly (e m : ℚ) (ctx : String)
    (hv : variancePct e m > 20) :
    (∀ g : Except String AIText,
        (aiStep (preliminaryStatusOf (variancePct e m)) (variancePct e m) ctx
          (Except.ok (analyzeEnergyAnomaly g))).finalStatus = "ANOMALY")
    ∧ (∀ msg,
        (aiStep (preliminaryStatusOf (variancePct e m)) (variancePct e m) ctx
          (Except.error msg)).finalStatus = "ANOMALY") := by
  have hp : preliminaryStatusOf (variancePct e m) = "ANOMALY" := by
    unfold preliminaryStatusOf
    rw [if_pos hv]
  refine ⟨fun g => ?_, fun msg => by simp [aiStep, hp]⟩
  rcases analyzeEnergyAnomaly_status_cases g with h | h | h | h <;>
    simp [aiStep, hp, h, severityOrder, jsOptGT]

/-- C2 witness at energyKwh 430, maxLoadKwh 350 (variance about 22.9). -/
theorem final_severity_floor_anomaly_witness :
    variancePct 430 350 > 20
    ∧ (aiStep (preliminaryStatusOf (variancePct 430 350)) (variancePct 430 350) "ctx"
        (Except.ok (analyzeEnergyAnomaly
          (Except.ok (AIText.withJson (some ⟨some "NORMAL", some "fine", some 90⟩)))))).finalStatus
      = "ANOMALY" :=
  ⟨by norm_num [variancePct],
   (final_severity_floor_anomaly 430 350 "ctx" (by norm_num [variancePct])).1
     (Except.ok (AIText.withJson (some ⟨some "NORMAL", some "fine", some 90⟩)))⟩

/-- C3 counterexample: with the rule verdict strictly more severe
(ANOMALY, rank 3) than the AI verdict (NORMAL, rank 0), the final outcome
keeps the ANOMALY severity but carries the confidence and the reasoning of
the AI result, not of the rule stage. -/
theorem reconciler_keeps_ai_confidence_counterexample :
    jsOptGT (severityOrder "ANOMALY") (severityOrder "NORMAL") = true
    ∧ aiStep "ANOMALY" 30 "ctx" (Except.ok ⟨"NORMAL", "ai made this up", 10⟩)
        = ⟨"ANOMALY", "ai made this up", 10⟩
    ∧ (10 : ℚ) ≠ 75 ∧ (10 : ℚ) ≠ 85 := by
  norm_num [aiStep, severityOrder, jsOptGT]

/-- C3 amended: on a successful AI call the final severity is the one
with the higher severity rank (PENDING falls back to the preliminary
status), while the final reasoning and confidence are always those of the
AI result, even when the rule severity wins; when the awaited AI stage
throws, the final severity is the preliminary one and the confidence keeps
its default value 75. -/
theorem reconciler_severity_and_passthrough (p ctx : String) (v : ℚ)
    (r : EnergyAnalysisResult)
    (hp : p = "VERIFIED" ∨ p = "WARNING" ∨ p = "ANOMALY")
    (ha : r.status = "NORMAL" ∨ r.status = "WARNING" ∨ r.status = "ANOMALY"
      ∨ r.status = "PENDING") :
    (aiStep p v ctx (Except.ok r)).aiReasoning = r.reasoning
    ∧ (aiStep p v ctx (Except.ok r)).confidence = r.confidence
    ∧ (r.status ≠ "PENDING" →
        severityOrder (aiStep p v ctx (Except.ok r)).finalStatus
          = some (max ((severityOrder p).getD 0) ((severityOrder r.status).getD 0)))
    ∧ (r.status = "PENDING" → (aiStep p v ctx (Except.ok r)).finalStatus = p)
    ∧ (∀ msg, (aiStep p v ctx (Except.error msg)).finalStatus = p
        ∧ (aiStep p v ctx (Except.error msg)).confidence = 75) := by
  rcases hp with hp | hp | hp <;> rcases ha with ha | ha | ha | ha <;> subst hp <;>
    simp [aiStep, ha, severityOrder, jsOptGT]

/-- C3 witness: rule verdict ANOMALY against AI verdict NORMAL. -/
theorem reconciler_severity_and_passthrough_witness :
    severityOrder (aiStep "ANOMALY" 30 "c" (Except.ok ⟨"NORMAL", "all fine", 10⟩)).finalStatus
      = some (max ((severityOrder "ANOMALY").getD 0) ((severityOrder "NORMAL").getD 0)) :=
  (reconciler_severity_and_passthrough "ANOMALY" "c" 30 ⟨"NORMAL", "all fine", 10⟩
    (by decide) (by decide)).2.2.1 (by decide)

/-- C4 counterexample: at variance above 20 percent the rule stage
contributes only the ANOMALY status; the confidence attached to the
rule-based verdict (observable when the AI stage fails) is the default 75,
not 85. -/
theorem rule_precheck_confidence_counterexample :
    variancePct 430 350 > 20
    ∧ (aiStep (preliminaryStatusOf (variancePct 430 350)) (variancePct 430 350) "ctx"
        (Except.error "AI down")).finalStatus = "ANOMALY"
    ∧ (aiStep (preliminaryStatusOf (variancePct 430 350)) (variancePct 430 350) "ctx"
        (Except.error "AI down")).confidence = 75
    ∧ (75 : ℚ) ≠ 85 := by
  norm_num [aiStep, preliminaryStatusOf, variancePct]

/-- C4 amended: the rule pre-check returns ANOMALY for variance above 20,
WARNING for variance in (10, 20] - in particular exactly at the boundary
20, reached by energyKwh 420 and maxLoadKwh 350 - and VERIFIED otherwise;
it attaches no confidence of its own: when the AI stage fails, the
confidence persisted with the rule-based verdict is the default 75. -/
theorem rule_precheck_thresholds (v : ℚ) :
    (v > 20 → preliminaryStatusOf v = "ANOMALY")
    ∧ (10 < v → v ≤ 20 → preliminaryStatusOf v = "WARNING")
    ∧ (v ≤ 10 → preliminaryStatusOf v = "VERIFIED")
    ∧ variancePct 420 350 = 20
    ∧ preliminaryStatusOf (variancePct 420 350) = "WARNING"
    ∧ (∀ ctx msg, (aiStep (preliminaryStatusOf v) v ctx (Except.error msg)).confidence = 75) := by
  refine ⟨fun h => ?_, fun h1 h2 => ?_, fun h => ?_, by norm_num [variancePct],
    by norm_num [preliminaryStatusOf, variancePct], fun ctx msg => rfl⟩
  · unfold preliminaryStatusOf
    rw [if_pos h]
  · unfold preliminaryStatusOf
    rw [if_neg (by linarith), if_pos h1]
  · unfold preliminaryStatusOf
    rw [if_neg (by linarith), if_neg (by linarith)]

/-- C4 witness at variance 160/7 (energyKwh 430, maxLoadKwh 350). -/
theorem rule_precheck_thresholds_witness :
    variancePct 430 350 > 20 ∧ preliminaryStatusOf (variancePct 430 350) = "ANOMALY" :=
  ⟨by norm_num [variancePct],
   (rule_precheck_thresholds (variancePct 430 350)).1 (by norm_num [variancePct])⟩

/-- An environment in which the initial iot_logs fetch rejects and the
top-level catch fires. -/
def envFetchThrows : OrchEnv :=
  ⟨DbCall.thrown "Network failure", DbCall.ok ⟨"Acme Textiles", 350, "Mumbai"⟩,
   DbCall.ok [], ⟨25, "Clear", none⟩, 500, Except.error "unused", DbCall.ok "audit-9"⟩

/-- An environment in which every external call succeeds. -/
def envAllOk : OrchEnv :=
  ⟨DbCall.ok ⟨430, "sup-1", "2024-01-01T10:00:00Z"⟩, DbCall.ok ⟨"Acme Textiles", 350, "Mumbai"⟩,
   DbCall.ok [400, 410], ⟨25, "Clear", none⟩, 500,
   Except.ok ⟨"NORMAL", "Reading looks fine", 90⟩, DbCall.ok "audit-9"⟩

/-- C1 counterexample: when a stage throws, the top-level catch returns a
failure result carrying the error message and persists no audit verdict at
all - there is no WARNING, confidence 0, system-error verdict. -/
theorem processIotLog_error_drops_reading :
    (processIotLog "log-1" envFetchThrows).1.success = false
    ∧ (processIotLog "log-1" envFetchThrows).1.error = some "Network failure"
    ∧ (processIotLog "log-1" envFetchThrows).2 = [] := by
  refine ⟨rfl, rfl, rfl⟩

/-- C1 amended: processIotLog persists exactly one audit verdict when it
returns success, and persists nothing whenever it fails - including when
any stage throws and the top-level catch returns the failure result. -/
theorem processIotLog_persists_iff_success (logId : String) (env : OrchEnv) :
    ((processIotLog logId env).1.success = true → (processIotLog logId env).2.length = 1)
    ∧ ((processIotLog logId env).1.success = false → (processIotLog logId env).2 = [])
    ∧ (∀ msg, env.iotLog = DbCall.thrown msg →
        (processIotLog logId env).1.success = false ∧ (processIotLog logId env).2 = []) := by
  obtain ⟨il, sp, hl, w, gi, ai, ca⟩ := env
  cases il <;> cases sp <;> cases hl <;> cases ca <;> simp [processIotLog]

/-- C1 witness: the all-ok environment persists exactly one verdict. -/
theorem processIotLog_persists_iff_success_witness :
    (processIotLog "log-1" envAllOk).2.length = 1 :=
  (processIotLog_persists_iff_success "log-1" envAllOk).1
    (by norm_num [processIotLog, envAllOk, aiStep, preliminaryStatusOf, variancePct,
      severityOrder, jsOptGT])

/-- The synthetic weather generator only ever produces one of four
condition strings, so the condition field is always populated. -/
lemma getMockWeatherData_condition_mem (lat lon : ℚ) (rng : MockRng) :
    (getMockWeatherData lat lon rng).condition
      ∈ ["Clear", "Partly Cloudy", "Cloudy", "Snow"] := by
  unfold getMockWeatherData
  rcases lt_or_ge |lat| 23.5 with hb | hb
  · rw [if_pos hb]
    split_ifs <;> simp
  · rw [if_neg (not_lt.mpr hb)]
    rcases lt_or_ge |lat| 66.5 with hb2 | hb2
    · rw [if_pos hb2]
      dsimp only
      split_ifs <;> simp
    · rw [if_neg (not_lt.mpr hb2)]
      split_ifs <;> simp

/-- C5 counterexample: getContextData is not total on every input
location - latitude 100 makes it throw instead of returning a snapshot. -/
theorem getContextData_invalid_latitude_throws :
    getContextData 100 0 none none ⟨0, 0, 0⟩ 0
      = Except.error "Invalid latitude: 100. Must be between -90 and 90." := by
  have h : ((100 : ℚ) < -90 ∨ (100 : ℚ) > 90) := by norm_num
  rw [getContextData, if_pos h]
  rfl

/-- C5 amended: for every location with latitude in [-90, 90] and
longitude in [-180, 180] and every provider behaviour, getContextData
returns a fully-populated snapshot, substituting the synthetic generators
for failed sources and recording per-field provenance; out-of-range
coordinates throw instead. -/
theorem getContextData_total_on_valid_coords (lat lon : ℚ)
    (weatherApi : Option WeatherData) (gridApi : Option GridData)
    (rng : MockRng) (hour : ℕ)
    (hlat₁ : -90 ≤ lat) (hlat₂ : lat ≤ 90) (hlon₁ : -180 ≤ lon) (hlon₂ : lon ≤ 180) :
    ∃ ctx : ContextData,
      getContextData lat lon weatherApi gridApi rng hour = Except.ok ctx
      ∧ ctx.sourceWeather = (if weatherApi.isSome then SourceTag.api else SourceTag.mock)
      ∧ ctx.sourceGrid = (if gridApi.isSome then SourceTag.api else SourceTag.mock)
      ∧ (weatherApi = none → ctx.weather = getMockWeatherData lat lon rng)
      ∧ (gridApi = none → ctx.grid = getMockGridData lat lon hour)
      ∧ ctx.weather.condition ∈
          (match weatherApi with
           | some w => [w.condition]
           | none => ["Clear", "Partly Cloudy", "Cloudy", "Snow"]) := by
  have h1 : ¬((lat : ℚ) < -90 ∨ (lat : ℚ) > 90) := by
    push_neg
    exact ⟨by linarith, by linarith⟩
  have h2 : ¬((lon : ℚ) < -180 ∨ (lon : ℚ) > 180) := by
    push_neg
    exact ⟨by linarith, by linarith⟩
  rw [getContextData, if_neg h1, if_neg h2]
  refine ⟨_, rfl, rfl, rfl, ?_, ?_, ?_⟩
  · rintro rfl
    rfl
  · rintro rfl
    rfl
  · rcases weatherApi with _ | w
    · simpa using getMockWeatherData_condition_mem lat lon rng
    · simp

/-- C5 witness at a valid location with both providers failing. -/
theorem getContextData_total_on_valid_coords_witness :
    ∃ ctx : ContextData,
      getContextData 28 77 none none ⟨1 / 2, 1 / 2, 1 / 2⟩ 12 = Except.ok ctx
      ∧ ctx.sourceWeather = (if (none : Option WeatherData).isSome
          then SourceTag.api else SourceTag.mock)
      ∧ ctx.sourceGrid = (if (none : Option GridData).isSome
          then SourceTag.api else SourceTag.mock)
      ∧ ((none : Option WeatherData) = none →
          ctx.weather = getMockWeatherData 28 77 ⟨1 / 2, 1 / 2, 1 / 2⟩)
      ∧ ((none : Option GridData) = none → ctx.grid = getMockGridData 28 77 12)
      ∧ ctx.weather.condition ∈
          (match (none : Option WeatherData) with
           | some w => [w.condition]
           | none => ["Clear", "Partly Cloudy", "Cloudy", "Snow"]) :=
  getContextData_total_on_valid_coords 28 77 none none ⟨1 / 2, 1 / 2, 1 / 2⟩ 12
    (by norm_num) (by norm_num) (by norm_num) (by norm_num)

/-- C6 counterexample: at exactly 90 percent of the ceiling the fallback
audit returns VERIFIED with confidence 80, not WARNING with confidence 70,
because its utilization check is strict. -/
theorem fallback_at_ninety_percent_counterexample :
    (90 : ℚ) = 100 * 0.9
    ∧ (performFallbackAudit 90 100 20).verdict = "VERIFIED"
    ∧ (performFallbackAudit 90 100 20).confidence = 80
    ∧ "VERIFIED" ≠ "WARNING" ∧ (80 : ℚ) ≠ 70 :=
  ⟨by norm_num, by norm_num [performFallbackAudit], by norm_num [performFallbackAudit],
   by decide, by norm_num⟩

/-- C6 amended: the fallback heuristic returns ANOMALY 85 above 120
percent of the ceiling; over the ceiling it returns WARNING 60 under
extreme temperature and ANOMALY 75 otherwise; at or under the ceiling it
returns WARNING 70 only when utilization strictly exceeds 90 percent, and
VERIFIED 80 otherwise - in particular at exactly 90 percent. -/
theorem performFallbackAudit_branches (power max_load temp_c : ℚ) (hm : 0 < max_load) :
    (power > max_load * 1.2 →
      (performFallbackAudit power max_load temp_c).verdict = "ANOMALY"
      ∧ (performFallbackAudit power max_load temp_c).confidence = 85)
    ∧ (power > max_load → power ≤ max_load * 1.2 → (temp_c > 32 ∨ temp_c < 5) →
      (performFallbackAudit power max_load temp_c).verdict = "WARNING"
      ∧ (performFallbackAudit power max_load temp_c).confidence = 60)
    ∧ (power > max_load → power ≤ max_load * 1.2 → ¬(temp_c > 32 ∨ temp_c < 5) →
      (performFallbackAudit power max_load temp_c).verdict = "ANOMALY"
      ∧ (performFallbackAudit power max_load temp_c).confidence = 75)
    ∧ (power ≤ max_load → power / max_load * 100 > 90 →
      (performFallbackAudit power max_load temp_c).verdict = "WARNING"
      ∧ (performFallbackAudit power max_load temp_c).confidence = 70)
    ∧ (power ≤ max_load → power / max_load * 100 ≤ 90 →
      (performFallbackAudit power max_load temp_c).verdict = "VERIFIED"
      ∧ (performFallbackAudit power max_load temp_c).confidence = 80) := by
  refine ⟨fun h1 => ?_, fun h1 h2 h3 => ?_, fun h1 h2 h3 => ?_,
    fun h1 h2 => ?_, fun h1 h2 => ?_⟩ <;>
    simp only [performFallbackAudit] <;> split_ifs <;>
    first
      | exact ⟨rfl, rfl⟩
      | (exfalso; linarith)

/-- C6 witness at the spec example: power 300, ceiling 350, temp 33. -/
theorem performFallbackAudit_branches_witness :
    (0 : ℚ) < 350
    ∧ (performFallbackAudit 300 350 33).verdict = "VERIFIED"
    ∧ (performFallbackAudit 300 350 33).confidence = 80 :=
  ⟨by norm_num,
   ((performFallbackAudit_branches 300 350 33 (by norm_num)).2.2.2.2
     (by norm_num) (by norm_num)).1,
   ((performFallbackAudit_branches 300 350 33 (by norm_num)).2.2.2.2
     (by norm_num) (by norm_num)).2⟩

/-- C7 counterexample: with extreme heat (40 C, energy above 85 percent of
the ceiling) already explaining the usage, a rainy reading above 90
percent is still marked suspicious by check 5, and at exactly 90 percent
the rainy-day check does not fire at all. -/
theorem rainy_day_overrides_heat_counterexample :
    (40 : ℚ) > 35 ∧ (95 : ℚ) > 100 * 0.85
    ∧ (analyzeContextualAnomaly 95 ⟨40, "Rainy", none⟩ 500 100).contextFlags
        = ["EXTREME_HEAT_HIGH_LOAD", "HIGH_LOAD_RAINY_DAY"]
    ∧ (analyzeContextualAnomaly 95 ⟨40, "Rainy", none⟩ 500 100).isSuspicious = true
    ∧ (90 : ℚ) = 100 * 0.9
    ∧ (analyzeContextualAnomaly 90 ⟨25, "Rainy", none⟩ 500 100).contextFlags = []
    ∧ (analyzeContextualAnomaly 90 ⟨25, "Rainy", none⟩ 500 100).isSuspicious = false := by
  refine ⟨by norm_num, by norm_num, ?_, ?_, by norm_num, ?_, ?_⟩ <;>
    norm_num [analyzeContextualAnomaly]

/-- C7 amended: whenever the weather condition is the string Rainy and the
energy strictly exceeds 90 percent of the ceiling, the HIGH_LOAD_RAINY_DAY
flag is added and the result is suspicious; the exculpatory check 4 never
clears the suspicious bit, so it does not prevent check 5 from firing. -/
theorem rainy_day_flag_sets_suspicious (e : ℚ) (w : WeatherContext) (g m : ℚ)
    (hc : w.condition = "Rainy") (he : e > m * 0.9) :
    "HIGH_LOAD_RAINY_DAY" ∈ (analyzeContextualAnomaly e w g m).contextFlags
    ∧ (analyzeContextualAnomaly e w g m).isSuspicious = true := by
  have h5 : decide (w.condition = "Rainy" ∧ e > m * 0.9) = true := by
    simp [hc, he]
  unfold analyzeContextualAnomaly
  rw [h5]
  constructor
  · simp
  · simp

/-- C7 witness: rainy reading at 95 percent of the ceiling under extreme
heat. -/
theorem rainy_day_flag_sets_suspicious_witness :
    "HIGH_LOAD_RAINY_DAY" ∈ (analyzeContextualAnomaly 95 ⟨40, "Rainy", none⟩ 500 100).contextFlags
    ∧ (analyzeContextualAnomaly 95 ⟨40, "Rainy", none⟩ 500 100).isSuspicious = true :=
  rainy_day_flag_sets_suspicious 95 ⟨40, "Rainy", none⟩ 500 100 rfl (by norm_num)

/-- C8 counterexample: at longitude 0 the synthetic grid intensity equals
the base value 500 at every hour outside 18..21, in particular at every
morning hour, and 600 only inside the single evening window - there is no
morning peak window. -/
theorem mock_grid_single_peak_window_counterexample :
    (getMockGridData 0 0 6).grid_carbon_intensity = 500
    ∧ (getMockGridData 0 0 7).grid_carbon_intensity = 500
    ∧ (getMockGridData 0 0 8).grid_carbon_intensity = 500
    ∧ (getMockGridData 0 0 9).grid_carbon_intensity = 500
    ∧ (getMockGridData 0 0 10).grid_carbon_intensity = 500
    ∧ (getMockGridData 0 0 17).grid_carbon_intensity = 500
    ∧ (getMockGridData 0 0 18).grid_carbon_intensity = 600
    ∧ (getMockGridData 0 0 21).grid_carbon_intensity = 600
    ∧ (getMockGridData 0 0 22).grid_carbon_intensity = 500
    ∧ (500 : ℤ) ≠ 600 := by
  norm_num [getMockGridData, jsRound]

/-- C8 amended: the synthetic grid fallback computes the base value
300 + (lon + 180) / 360 * 400 from the longitude and multiplies it by 1.2
exactly when the current wall-clock hour lies in the single window 18..21
(one evening window, no morning window), and by 1 at every other hour; the
reading timestamp is not consulted. -/
theorem getMockGridData_intensity_formula (lat lon : ℚ) (hour : ℕ) :
    (getMockGridData lat lon hour).grid_carbon_intensity
      = jsRound ((300 + (lon + 180) * 10 / 9)
          * (if 18 ≤ hour ∧ hour ≤ 21 then 6 / 5 else 1)) := by
  have harith : (300 + (lon + 180) / 360 * 400 : ℚ) = 300 + (lon + 180) * 10 / 9 := by
    ring
  unfold getMockGridData
  split_ifs with h <;> dsimp only <;> rw [harith] <;> norm_num [jsRound]

/-- Updating the matched row of the store replaces exactly the value the
single-row lookup finds. -/
lemma lookupAudit_map_update (store : AuditStore) (auditId : String) (upd : AuditRow)
    (h : (lookupAudit store auditId).isSome) :
    lookupAudit (store.map fun p => if p.1 = auditId then (p.1, upd) else p) auditId
      = some upd := by
  induction store with
  | nil => simp [lookupAudit] at h
  | cons hd tl ih =>
      by_cases hk : hd.1 = auditId
      · simp [lookupAudit, List.find?_cons, hk]
      · have h' : (lookupAudit tl auditId).isSome := by
          simpa [lookupAudit, List.find?_cons, hk] using h
        simpa [lookupAudit, List.find?_cons, hk] using ih h'

/-- C9 counterexample: a second human-action update on the same audit row
succeeds and overwrites the stored action, instead of failing and leaving
it unchanged. -/
theorem human_action_overwrite_counterexample :
    updateAuditWithHumanAction [("audit-1", ⟨none, none⟩)] "audit-1" HumanAction.APPROVED "t1"
      = Except.ok ([("audit-1", ⟨some HumanAction.APPROVED, some "t1"⟩)],
          ⟨some HumanAction.APPROVED, some "t1"⟩)
    ∧ updateAuditWithHumanAction [("audit-1", ⟨some HumanAction.APPROVED, some "t1"⟩)]
        "audit-1" HumanAction.FLAGGED "t2"
      = Except.ok ([("audit-1", ⟨some HumanAction.FLAGGED, some "t2"⟩)],
          ⟨some HumanAction.FLAGGED, some "t2"⟩)
    ∧ some HumanAction.FLAGGED ≠ some HumanAction.APPROVED := by
  refine ⟨?_, ?_, by decide⟩ <;>
    norm_num [updateAuditWithHumanAction, lookupAudit, List.find?]

/-- C9 amended: updateAuditWithHumanAction succeeds whenever the audit row
exists, regardless of whether a human action was already recorded; every
call overwrites human_action and its timestamp, so the operation is not
exactly-once. -/
theorem updateAuditWithHumanAction_overwrites (store : AuditStore)
    (auditId now₁ now₂ : String) (a₁ a₂ : HumanAction) (row : AuditRow)
    (h : lookupAudit store auditId = some row) :
    ∃ store₁ r₁,
      updateAuditWithHumanAction store auditId a₁ now₁ = Except.ok (store₁, r₁)
      ∧ r₁.human_action = some a₁
      ∧ ∃ store₂ r₂,
          updateAuditWithHumanAction store₁ auditId a₂ now₂ = Except.ok (store₂, r₂)
          ∧ r₂.human_action = some a₂
          ∧ lookupAudit store₂ auditId = some r₂ := by
  have h1 : updateAuditWithHumanAction store auditId a₁ now₁
      = Except.ok (store.map fun p => if p.1 = auditId then (p.1, ⟨some a₁, some now₁⟩) else p,
          (⟨some a₁, some now₁⟩ : AuditRow)) := by
    rw [updateAuditWithHumanAction, h]
  have h2 : lookupAudit
      (store.map fun p => if p.1 = auditId then (p.1, ⟨some a₁, some now₁⟩) else p) auditId
      = some ⟨some a₁, some now₁⟩ :=
    lookupAudit_map_update store auditId _ (by rw [h]; rfl)
  have h3 : updateAuditWithHumanAction
      (store.map fun p => if p.1 = auditId then (p.1, ⟨some a₁, some now₁⟩) else p)
      auditId a₂ now₂
      = Except.ok
          (((store.map fun p => if p.1 = auditId then (p.1, ⟨some a₁, some now₁⟩) else p).map
            fun p => if p.1 = auditId then (p.1, ⟨some a₂, some now₂⟩) else p),
           (⟨some a₂, some now₂⟩ : AuditRow)) := by
    rw [updateAuditWithHumanAction, h2]
  have h4 : lookupAudit
      (((store.map fun p => if p.1 = auditId then (p.1, ⟨some a₁, some now₁⟩) else p).map
        fun p => if p.1 = auditId then (p.1, ⟨some a₂, some now₂⟩) else p)) auditId
      = some ⟨some a₂, some now₂⟩ :=
    lookupAudit_map_update _ auditId _ (by rw [h2]; rfl)
  exact ⟨_, _, h1, rfl, _, _, h3, rfl, h4⟩

/-- C9 witness: overwriting APPROVED with FLAGGED on a one-row store. -/
theorem updateAuditWithHumanAction_overwrites_witness :
    ∃ store₁ r₁,
      updateAuditWithHumanAction [("audit-1", ⟨none, none⟩)] "audit-1"
          HumanAction.APPROVED "t1" = Except.ok (store₁, r₁)
      ∧ r₁.human_action = some HumanAction.APPROVED
      ∧ ∃ store₂ r₂,
          updateAuditWithHumanAction store₁ "audit-1" HumanAction.FLAGGED "t2"
            = Except.ok (store₂, r₂)
          ∧ r₂.human_action = some HumanAction.FLAGGED
          ∧ lookupAudit store₂ "audit-1" = some r₂ :=
  updateAuditWithHumanAction_overwrites [("audit-1", ⟨none, none⟩)] "audit-1" "t1" "t2"
    HumanAction.APPROVED HumanAction.FLAGGED ⟨none, none⟩ (by decide)

end GreenGuard
